import Mathlib

/-!
Verification of AstroSense backend services against their specification.

Numbers that the Python code manipulates as IEEE floats are modelled as
exact rationals (`ℚ`); the backtesting metrics, which involve square
roots, are modelled over the reals (`ℝ`).  Python strings whose only use
is to be parsed (ISO-8601 timestamps, flare magnitude suffixes) are
modelled by the result of the parse: `Option ℚ`, with `none` standing
for a missing or unparseable string.
-/

namespace AstroSense

/-! ### fusion_combiner.py -/

/-- One entry of `FusionCombiner.discrepancy_log`. -/
structure Discrepancy where
  field_name : String
  ml_value : ℚ
  physics_value : ℚ
  difference : ℚ
  resolved_value : ℚ
  resolution : String
deriving DecidableEq

/-- `FusionCombiner.resolve_conflicts`.  The combiner's `ml_weight` and
`physics_weight` (default 0.6 / 0.4) are passed explicitly; the
discrepancy log is threaded as explicit state.  Returns the resolved
value, the conflict flag, and the updated log. -/
def resolve_conflicts (ml_weight physics_weight : ℚ)
    (ml_value physics_value : ℚ) (field_name : String) (threshold : ℚ)
    (log : List Discrepancy) : ℚ × Bool × List Discrepancy :=
  let diff := |ml_value - physics_value|
  let is_conflict : Bool := decide (threshold < diff)
  if is_conflict then
    let resolved := max ml_value physics_value
    let discrepancy : Discrepancy :=
      { field_name := field_name
        ml_value := ml_value
        physics_value := physics_value
        difference := diff
        resolved_value := resolved
        resolution := "conservative" }
    (resolved, is_conflict, log ++ [discrepancy])
  else
    (ml_weight * ml_value + physics_weight * physics_value, is_conflict, log)

/-! ### physics_rules.py -/

/-- `PhysicsRulesEngine.apply_mcpherron_relation`. -/
def apply_mcpherron_relation (bz wind_speed : ℚ) : ℚ :=
  if 0 ≤ bz then
    1/10
  else
    let coupling := wind_speed * bz ^ 2
    let normalized_coupling := min (coupling / 300000) 1
    if bz < -10 ∧ 500 < wind_speed then
      min (normalized_coupling * (3/2)) 1
    else
      normalized_coupling

/-- `PhysicsRulesEngine.calculate_cme_impact`. -/
def calculate_cme_impact (cme_speed : ℚ) : ℚ :=
  if cme_speed ≤ 0 then
    0
  else
    let severity :=
      if cme_speed < 500 then cme_speed / 1000
      else if cme_speed < 1000 then 1/2 + (cme_speed - 500) / 1000
      else min (1 + (cme_speed - 1000) / 2000) (3/2)
    min severity 1

/-! ### models/alert.py and services/alert_manager.py : alert expiration -/

/-- The fields of `models.alert.Alert` relevant to expiration.  Times are
POSIX seconds as rationals. -/
structure Alert where
  alert_id : ℕ
  created_at : ℚ
  expires_at : ℚ
deriving DecidableEq

/-- `Alert.is_expired` with an explicit `current_time`. -/
def Alert.is_expired (a : Alert) (current_time : ℚ) : Bool :=
  decide (a.expires_at ≤ current_time)

/-- The two alert collections held by `AlertManager`. -/
structure AlertManagerState where
  active_alerts : List Alert
  alert_history : List Alert
deriving DecidableEq

/-- `AlertManager.expire_old_alerts` with an explicit `current_time`:
partitions the active list, extends the history with the expired
alerts (in traversal order) and keeps the rest active. -/
def expire_old_alerts (s : AlertManagerState) (current_time : ℚ) :
    AlertManagerState :=
  { active_alerts := s.active_alerts.filter (fun a => !(a.is_expired current_time))
    alert_history :=
      s.alert_history ++ s.active_alerts.filter (fun a => a.is_expired current_time) }

/-- Running `expire_old_alerts` once for each reference time in `ts`, in
order. -/
def expire_many (s : AlertManagerState) (ts : List ℚ) : AlertManagerState :=
  ts.foldl expire_old_alerts s

/-! ### services/alert_manager.py : forecast deduplication and merging -/

/-- `MERGE_WINDOW = 30 * 60` seconds. -/
def MERGE_WINDOW : ℚ := 30 * 60

/-- The fields of a forecast payload dictionary used by `forecast_key`,
`merge_forecasts` and `handle_new_forecast`.  String-valued timestamp
fields are modelled by their ISO-8601 parse result (`none` when the
field is missing or unparseable); `confidence_percent`, `alert_type`
and `location` are `none` when absent (the code supplies defaults via
`dict.get`). -/
structure ForecastPayload where
  alert_type : Option String
  timestamp : Option ℚ
  location : Option String
  confidence_percent : Option ℚ
  arrival_time_lower : Option ℚ
  arrival_time_upper : Option ℚ
deriving DecidableEq

/-- The canonical key produced by `forecast_key`: the formatted string
`"{event_type}|{rounded}|{location}"` is modelled by its three
components. -/
structure ForecastKey where
  event_type : String
  bucket : ℤ
  location : String
deriving DecidableEq

/-- `forecast_key`: event type defaulting to `"FORECAST"`, the 5-minute
bucket `int(ts.timestamp() // 300)` (0 when the timestamp does not
parse), and the location defaulting to `"global"`. -/
def forecast_key (p : ForecastPayload) : ForecastKey :=
  { event_type := p.alert_type.getD "FORECAST"
    bucket := match p.timestamp with
      | some ts => ⌊ts / 300⌋
      | none => 0
    location := p.location.getD "global" }

/-- One entry of the `_active_forecasts` registry. -/
structure StoredForecast where
  payload : ForecastPayload
  created_at : ℚ
deriving DecidableEq

/-- `merge_forecasts`.  The weights `w1`, `w2` default to 50 when the
confidence is absent.  When the weights sum to a positive value and all
four arrival-time strings parse, the confidence becomes
`min 100 ((w1+w2)/2)` and the arrival window is widened; any parse
failure keeps the existing payload values (the code's bare `except`).
In every case `created_at` is refreshed to `now` (`time.time()`). -/
def merge_forecasts (existing : StoredForecast) (new_payload : ForecastPayload)
    (now : ℚ) : StoredForecast :=
  let ex := existing.payload
  let w1 := ex.confidence_percent.getD 50
  let w2 := new_payload.confidence_percent.getD 50
  let merged_payload :=
    if 0 < w1 + w2 then
      match ex.arrival_time_lower, ex.arrival_time_upper,
            new_payload.arrival_time_lower, new_payload.arrival_time_upper with
      | some ex_lower, some ex_upper, some new_lower, some new_upper =>
        { ex with
            confidence_percent := some (min 100 ((w1 + w2) / 2))
            arrival_time_lower := some (min ex_lower new_lower)
            arrival_time_upper := some (max ex_upper new_upper) }
      | _, _, _, _ => ex
    else ex
  { payload := merged_payload, created_at := now }

/-- The `_active_forecasts` registry, keyed by canonical forecast key. -/
def Registry : Type := ForecastKey → Option StoredForecast

/-- `handle_new_forecast`: merge into an existing entry with the same key
created within `MERGE_WINDOW`, otherwise store the payload as a fresh
entry.  Returns the updated registry and the returned payload. -/
def handle_new_forecast (reg : Registry) (payload : ForecastPayload) (now : ℚ) :
    Registry × ForecastPayload :=
  let key := forecast_key payload
  match reg key with
  | some existing =>
    if now - existing.created_at ≤ MERGE_WINDOW then
      let merged := merge_forecasts existing payload now
      (fun k => if k = key then some merged else reg k, merged.payload)
    else
      (fun k => if k = key then some ⟨payload, now⟩ else reg k, payload)
  | none => (fun k => if k = key then some ⟨payload, now⟩ else reg k, payload)

/-! ### services/normalization.py and flare-class strings -/

/-- A flare class string such as `"X1.5"`, modelled by its first
character (`none` for the empty string) and by the `float` parse of the
remainder (`none` when the remainder is absent or unparseable). -/
structure FlareClassStr where
  letter : Option Char
  magnitude : Option ℚ
deriving DecidableEq

/-- `NormalizationEngine.FLARE_CLASS_ENCODING` dictionary lookup. -/
def flare_class_encoding (c : Char) : Option ℕ :=
  if c = 'A' then some 1
  else if c = 'B' then some 2
  else if c = 'C' then some 3
  else if c = 'M' then some 4
  else if c = 'X' then some 5
  else none

/-- `NormalizationEngine.encode_flare_class`: 0 for an empty string or an
unknown class letter, otherwise the base encoding plus `magnitude / 10`
when the magnitude suffix parses. -/
def encode_flare_class (fc : FlareClassStr) : ℚ :=
  match fc.letter with
  | none => 0
  | some c =>
    match flare_class_encoding c.toUpper with
    | none => 0
    | some base =>
      match fc.magnitude with
      | none => (base : ℚ)
      | some magnitude => (base : ℚ) + magnitude / 10

/-! ### services/sector_predictors.py -/

/-- Python 3 `round` to the nearest integer, halves to the even integer
(banker's rounding); `int(round(x))` in the sources. -/
def pyRound (x : ℚ) : ℤ :=
  let f := ⌊x⌋
  let r := x - f
  if r < 1/2 then f
  else if 1/2 < r then f + 1
  else if f % 2 = 0 then f else f + 1

/-- `AviationPredictor.calculate_hf_blackout_probability`. -/
def calculate_hf_blackout_probability (flare_class : FlareClassStr)
    (solar_wind_speed kp_index bz : ℚ) : ℚ :=
  let flare_prob : ℚ :=
    match flare_class.letter with
    | none => 0
    | some c =>
      if c.toUpper = 'X' then 90
      else if c.toUpper = 'M' then 60
      else if c.toUpper = 'C' then 30
      else if c.toUpper = 'B' then 10
      else 5
  let kp_factor := min (kp_index * 5) 30
  let bz_factor := if bz < 0 then min (|bz| * (3/2)) 20 else 0
  let wind_factor :=
    if 500 < solar_wind_speed then min ((solar_wind_speed - 500) / 50) 15 else 0
  let total_prob := flare_prob + kp_factor + bz_factor + wind_factor
  max 0 (min total_prob 100)

/-- `TelecomPredictor.calculate_signal_degradation`. -/
def calculate_signal_degradation (kp_index bz solar_wind_speed proton_flux : ℚ) :
    ℚ :=
  let kp_degradation := kp_index / 9 * 50
  let bz_degradation := if bz < 0 then min (|bz| * 2) 30 else 0
  let wind_degradation :=
    if 500 < solar_wind_speed then min ((solar_wind_speed - 500) / 40) 20 else 0
  let proton_degradation := min (proton_flux / 100) 15
  let total_degradation :=
    kp_degradation + bz_degradation + wind_degradation + proton_degradation
  max 0 (min total_degradation 100)

/-- `GPSPredictor.calculate_positional_drift`. -/
def calculate_positional_drift (kp_index bz solar_wind_speed proton_flux : ℚ) :
    ℚ :=
  let kp_drift := kp_index / 9 * 150
  let bz_drift := if bz < 0 then |bz| * 5 else 0
  let wind_drift :=
    if 500 < solar_wind_speed then (solar_wind_speed - 500) / 10 else 0
  let proton_drift := proton_flux / 5
  max 0 (kp_drift + bz_drift + wind_drift + proton_drift)

/-- `PowerGridPredictor.calculate_gic_risk` (defaults
`ground_conductivity = 0.5`, `grid_topology_factor = 1.0` are passed
explicitly). -/
def calculate_gic_risk (kp_index bz solar_wind_speed : ℚ)
    (ground_conductivity grid_topology_factor : ℚ) : ℤ :=
  let kp_risk := kp_index / 9 * 6
  let bz_risk := if bz < 0 then min (|bz| / 10) 3 else 0
  let wind_risk :=
    if 500 < solar_wind_speed then min ((solar_wind_speed - 500) / 200) 2 else 0
  let base_risk := kp_risk + bz_risk + wind_risk
  let conductivity_multiplier := 1/2 + ground_conductivity * (1/2)
  let total_risk := base_risk * conductivity_multiplier * grid_topology_factor
  max 1 (min (pyRound total_risk + 1) 10)

/-- `SatellitePredictor.calculate_orbital_drag_risk` (default
`altitude_km = 400.0` passed explicitly). -/
def calculate_orbital_drag_risk (kp_index solar_wind_speed proton_flux : ℚ)
    (altitude_km : ℚ) : ℤ :=
  let kp_risk := kp_index / 9 * 5
  let wind_risk :=
    if 500 < solar_wind_speed then min ((solar_wind_speed - 500) / 150) 3 else 0
  let proton_risk := min (proton_flux / 200) 2
  let base_risk := kp_risk + wind_risk + proton_risk
  let altitude_factor : ℚ :=
    if altitude_km < 600 then 3/2
    else if altitude_km < 1000 then 6/5
    else 4/5
  max 1 (min (pyRound (base_risk * altitude_factor) + 1) 10)

/-! ### services/sector_predictors.py : CompositeScoreCalculator -/

/-- `CompositeScoreCalculator.normalize_gps_drift`. -/
def normalize_gps_drift (drift_cm : ℚ) : ℚ :=
  min (drift_cm / 500 * 100) 100

/-- `CompositeScoreCalculator.normalize_gic_risk`. -/
def normalize_gic_risk (gic_level : ℤ) : ℚ :=
  max 0 (min (((gic_level : ℚ) - 1) / 9 * 100) 100)

/-- `CompositeScoreCalculator.calculate_composite_score` with the
instance weights `{aviation: 0.35, telecom: 0.25, gps: 0.20,
power_grid: 0.20}`. -/
def calculate_composite_score (aviation_risk telecom_risk gps_risk
    power_grid_risk : ℚ) : ℚ :=
  let composite :=
    7/20 * aviation_risk + 1/4 * telecom_risk + 1/5 * gps_risk +
      1/5 * power_grid_risk
  max 0 (min composite 100)

/-- `CompositeScoreCalculator.classify_severity` with the instance
thresholds `high_alert_threshold = 70`, `moderate_threshold = 40`. -/
def classify_severity (score : ℚ) : String :=
  if 70 ≤ score then "high"
  else if 40 ≤ score then "moderate"
  else "low"

/-- `CompositeScoreCalculator.calculate`, restricted to the score and
severity it produces.  The four sector values are extracted from the
input dictionary with `dict.get` defaults 0.0, 0.0, 0.0 and 1, modelled
by `Option` inputs. -/
def composite_calculate (aviation_opt telecom_opt drift_opt : Option ℚ)
    (gic_opt : Option ℤ) : ℚ × String :=
  let aviation_risk := aviation_opt.getD 0
  let telecom_risk := telecom_opt.getD 0
  let gps_drift_cm := drift_opt.getD 0
  let gic_level := gic_opt.getD 1
  let gps_risk := normalize_gps_drift gps_drift_cm
  let power_grid_risk := normalize_gic_risk gic_level
  let composite_score :=
    calculate_composite_score aviation_risk telecom_risk gps_risk power_grid_risk
  (composite_score, classify_severity composite_score)

/-! ### services/backtesting_engine.py : accuracy report -/

/-- The per-sector impact values read by `generate_accuracy_report` from
an event's `predicted_impacts` / `actual_impacts` dictionaries. -/
structure Impacts where
  hf_blackout_probability : ℝ
  signal_degradation_percent : ℝ
  positional_drift_cm : ℝ
  gic_risk_level : ℝ
  orbital_drag_risk : ℝ
  composite_score : ℝ

/-- A `BacktestEvent` as consumed by `generate_accuracy_report`; a
falsy (absent or empty) impacts dictionary is `none`. -/
structure BacktestEvent where
  event_type : String
  timestamp : ℚ
  predicted_impacts : Option Impacts
  actual_impacts : Option Impacts

/-- The filter at the top of `generate_accuracy_report`: measurement
events carrying both predicted and actual impacts. -/
def measurement_events (timeline : List BacktestEvent) : List BacktestEvent :=
  timeline.filter fun e =>
    e.event_type == "measurement" && e.predicted_impacts.isSome &&
      e.actual_impacts.isSome

/-- The per-sector series of `(predicted, actual)` pairs built by the
sector loop of `generate_accuracy_report`. -/
def sector_series (proj : Impacts → ℝ) (timeline : List BacktestEvent) :
    List (ℝ × ℝ) :=
  (measurement_events timeline).filterMap fun e =>
    match e.predicted_impacts, e.actual_impacts with
    | some p, some a => some (proj p, proj a)
    | _, _ => none

/-- Mean absolute error of a series of `(predicted, actual)` pairs. -/
noncomputable def series_mae (l : List (ℝ × ℝ)) : ℝ :=
  (l.map fun x => |x.1 - x.2|).sum / l.length

/-- Root mean square error (`(sum((p-a)**2)/n) ** 0.5`). -/
noncomputable def series_rmse (l : List (ℝ × ℝ)) : ℝ :=
  Real.sqrt ((l.map fun x => (x.1 - x.2) ^ 2).sum / l.length)

/-- Mean absolute percentage error (`abs((p-a)/max(a,0.1))` averaged,
times 100). -/
noncomputable def series_mape (l : List (ℝ × ℝ)) : ℝ :=
  (l.map fun x => |(x.1 - x.2) / max x.2 (1/10)|).sum / l.length * 100

/-- `mean_pred` in the correlation computation of
`generate_accuracy_report`. -/
noncomputable def series_mean_pred (l : List (ℝ × ℝ)) : ℝ :=
  (l.map Prod.fst).sum / l.length

/-- `mean_actual` in the correlation computation. -/
noncomputable def series_mean_actual (l : List (ℝ × ℝ)) : ℝ :=
  (l.map Prod.snd).sum / l.length

/-- `numerator` in the correlation computation. -/
noncomputable def series_corr_num (l : List (ℝ × ℝ)) : ℝ :=
  (l.map fun x =>
    (x.1 - series_mean_pred l) * (x.2 - series_mean_actual l)).sum

/-- `denom_pred` in the correlation computation. -/
noncomputable def series_denom_pred (l : List (ℝ × ℝ)) : ℝ :=
  Real.sqrt ((l.map fun x => (x.1 - series_mean_pred l) ^ 2).sum)

/-- `denom_actual` in the correlation computation. -/
noncomputable def series_denom_actual (l : List (ℝ × ℝ)) : ℝ :=
  Real.sqrt ((l.map fun x => (x.2 - series_mean_actual l) ^ 2).sum)

/-- The simplified Pearson correlation coefficient of
`generate_accuracy_report`: 0 when the product of the two standard
deviations is not positive. -/
noncomputable def series_correlation (l : List (ℝ × ℝ)) : ℝ :=
  if 0 < series_denom_pred l * series_denom_actual l then
    series_corr_num l / (series_denom_pred l * series_denom_actual l)
  else 0

/-- The metrics dictionary stored for one sector. -/
structure SectorMetrics where
  mean_absolute_error : ℝ
  root_mean_square_error : ℝ
  mean_absolute_percentage_error : ℝ
  correlation_coefficient : ℝ
  sample_count : ℕ

/-- The metrics computed for one sector's series. -/
noncomputable def sector_metrics (l : List (ℝ × ℝ)) : SectorMetrics :=
  { mean_absolute_error := series_mae l
    root_mean_square_error := series_rmse l
    mean_absolute_percentage_error := series_mape l
    correlation_coefficient := series_correlation l
    sample_count := l.length }

/-- `BacktestingEngine._calculate_accuracy_grade`. -/
noncomputable def calculate_accuracy_grade (mae correlation : ℝ) : String :=
  if 4/5 < correlation ∧ mae < 10 then "A"
  else if 3/5 < correlation ∧ mae < 20 then "B"
  else if 2/5 < correlation ∧ mae < 30 then "C"
  else if 1/5 < correlation ∧ mae < 50 then "D"
  else "F"

/-- The part of the accuracy report the claims are about: the six
per-sector metric dictionaries and the overall metrics. -/
structure AccuracyReport where
  aviation : SectorMetrics
  telecom : SectorMetrics
  gps : SectorMetrics
  power_grid : SectorMetrics
  satellite : SectorMetrics
  composite : SectorMetrics
  overall_mean_absolute_error : ℝ
  overall_correlation_coefficient : ℝ
  accuracy_grade : String

/-- `BacktestingEngine.generate_accuracy_report`: `none` models the
`{'error': ...}` return when no event carries both predictions and
actual impacts; otherwise per-sector metrics for the six sectors and
overall metrics averaged over the six sectors. -/
noncomputable def generate_accuracy_report (timeline : List BacktestEvent) :
    Option AccuracyReport :=
  if (measurement_events timeline).isEmpty then none
  else
    let m_aviation := sector_metrics (sector_series Impacts.hf_blackout_probability timeline)
    let m_telecom := sector_metrics (sector_series Impacts.signal_degradation_percent timeline)
    let m_gps := sector_metrics (sector_series Impacts.positional_drift_cm timeline)
    let m_power_grid := sector_metrics (sector_series Impacts.gic_risk_level timeline)
    let m_satellite := sector_metrics (sector_series Impacts.orbital_drag_risk timeline)
    let m_composite := sector_metrics (sector_series Impacts.composite_score timeline)
    let overall_mae :=
      (m_aviation.mean_absolute_error + m_telecom.mean_absolute_error +
        m_gps.mean_absolute_error + m_power_grid.mean_absolute_error +
        m_satellite.mean_absolute_error + m_composite.mean_absolute_error) / 6
    let overall_correlation :=
      (m_aviation.correlation_coefficient + m_telecom.correlation_coefficient +
        m_gps.correlation_coefficient + m_power_grid.correlation_coefficient +
        m_satellite.correlation_coefficient + m_composite.correlation_coefficient) / 6
    some
      { aviation := m_aviation
        telecom := m_telecom
        gps := m_gps
        power_grid := m_power_grid
        satellite := m_satellite
        composite := m_composite
        overall_mean_absolute_error := overall_mae
        overall_correlation_coefficient := overall_correlation
        accuracy_grade := calculate_accuracy_grade overall_mae overall_correlation }

/-- The bounds claimed for every sector's metrics: MAE and RMSE are
non-negative and the correlation coefficient lies in `[−1, 1]`. -/
def sector_metrics_bounded (m : SectorMetrics) : Prop :=
  0 ≤ m.mean_absolute_error ∧ 0 ≤ m.root_mean_square_error ∧
    -1 ≤ m.correlation_coefficient ∧ m.correlation_coefficient ≤ 1

/-- The bounds claimed for the whole accuracy report: every sector's
metrics are bounded and the overall MAE is non-negative with the
overall correlation in `[−1, 1]`. -/
def accuracy_report_bounded (r : AccuracyReport) : Prop :=
  sector_metrics_bounded r.aviation ∧ sector_metrics_bounded r.telecom ∧
    sector_metrics_bounded r.gps ∧ sector_metrics_bounded r.power_grid ∧
    sector_metrics_bounded r.satellite ∧ sector_metrics_bounded r.composite ∧
    0 ≤ r.overall_mean_absolute_error ∧
    -1 ≤ r.overall_correlation_coefficient ∧
    r.overall_correlation_coefficient ≤ 1

/-! ## Theorems -/

/-- C1: with the default threshold 20 and weights 0.6/0.4,
`resolve_conflicts` returns `(max ml physics, True)` and appends exactly
one record with both inputs, their absolute difference and the resolved
value to the discrepancy log iff `|ml − physics| > 20`; otherwise it
returns the 0.6/0.4 blend with `False` and leaves the log unchanged. -/
theorem resolve_conflicts_default_spec (ml_value physics_value : ℚ)
    (field_name : String) (log : List Discrepancy) :
    (20 < |ml_value - physics_value| →
      resolve_conflicts (3/5) (2/5) ml_value physics_value field_name 20 log =
        (max ml_value physics_value, true,
          log ++ [{ field_name := field_name
                    ml_value := ml_value
                    physics_value := physics_value
                    difference := |ml_value - physics_value|
                    resolved_value := max ml_value physics_value
                    resolution := "conservative" }])) ∧
    (|ml_value - physics_value| ≤ 20 →
      resolve_conflicts (3/5) (2/5) ml_value physics_value field_name 20 log =
        (3/5 * ml_value + 2/5 * physics_value, false, log)) := by
  constructor
  · intro h
    simp [resolve_conflicts, h]
  · intro h
    simp [resolve_conflicts, not_lt.mpr h]

/-- Witness for C1 at concrete inputs on both sides of the threshold. -/
theorem resolve_conflicts_default_spec_witness :
    resolve_conflicts (3/5) (2/5) 50 10 "kp_index" 20 [] =
      (max (50:ℚ) 10, true,
        [] ++ [{ field_name := "kp_index"
                 ml_value := 50
                 physics_value := 10
                 difference := |(50:ℚ) - 10|
                 resolved_value := max (50:ℚ) 10
                 resolution := "conservative" }]) ∧
    resolve_conflicts (3/5) (2/5) 30 20 "kp_index" 20 [] =
      (3/5 * 30 + 2/5 * 20, false, []) :=
  ⟨(resolve_conflicts_default_spec 50 10 "kp_index" []).1 (by norm_num),
   (resolve_conflicts_default_spec 30 20 "kp_index" []).2 (by norm_num)⟩

/-- C5: for `wind_speed ≥ 0`, `apply_mcpherron_relation` returns exactly
0.1 when `bz ≥ 0`; for `bz < 0` it returns
`min(wind_speed·bz²/300000, 1)`, amplified by 1.5 and re-capped at 1
exactly when `bz < −10` and `wind_speed > 500` both hold; the result is
always in `[0, 1]`. -/
theorem apply_mcpherron_relation_spec (bz wind_speed : ℚ)
    (hws : 0 ≤ wind_speed) :
    (0 ≤ bz → apply_mcpherron_relation bz wind_speed = 1/10) ∧
    (bz < 0 → apply_mcpherron_relation bz wind_speed =
      (if bz < -10 ∧ 500 < wind_speed then
        min (min (wind_speed * bz ^ 2 / 300000) 1 * (3/2)) 1
      else
        min (wind_speed * bz ^ 2 / 300000) 1)) ∧
    0 ≤ apply_mcpherron_relation bz wind_speed ∧
    apply_mcpherron_relation bz wind_speed ≤ 1 := by
  have hb : (0:ℚ) ≤ wind_speed * bz ^ 2 / 300000 := by positivity
  refine ⟨fun h => by simp [apply_mcpherron_relation, h],
          fun h => by simp [apply_mcpherron_relation, not_le.mpr h], ?_, ?_⟩
  · unfold apply_mcpherron_relation
    split_ifs
    · norm_num
    · exact le_min (mul_nonneg (le_min hb zero_le_one) (by norm_num)) zero_le_one
    · exact le_min hb zero_le_one
  · unfold apply_mcpherron_relation
    split_ifs
    · norm_num
    · exact min_le_right _ _
    · exact min_le_right _ _

/-- Witness for C5 at concrete inputs exercising the northward, the
amplified and the unamplified branches. -/
theorem apply_mcpherron_relation_spec_witness :
    apply_mcpherron_relation 5 400 = 1/10 ∧
    apply_mcpherron_relation (-20) 700 =
      (if (-20:ℚ) < -10 ∧ (500:ℚ) < 700 then
        min (min ((700:ℚ) * (-20:ℚ) ^ 2 / 300000) 1 * (3/2)) 1
      else
        min ((700:ℚ) * (-20:ℚ) ^ 2 / 300000) 1) ∧
    apply_mcpherron_relation (-5) 400 =
      (if (-5:ℚ) < -10 ∧ (500:ℚ) < 400 then
        min (min ((400:ℚ) * (-5:ℚ) ^ 2 / 300000) 1 * (3/2)) 1
      else
        min ((400:ℚ) * (-5:ℚ) ^ 2 / 300000) 1) ∧
    0 ≤ apply_mcpherron_relation (-20) 700 ∧
    apply_mcpherron_relation (-20) 700 ≤ 1 :=
  ⟨(apply_mcpherron_relation_spec 5 400 (by norm_num)).1 (by norm_num),
   (apply_mcpherron_relation_spec (-20) 700 (by norm_num)).2.1 (by norm_num),
   (apply_mcpherron_relation_spec (-5) 400 (by norm_num)).2.1 (by norm_num),
   (apply_mcpherron_relation_spec (-20) 700 (by norm_num)).2.2.1,
   (apply_mcpherron_relation_spec (-20) 700 (by norm_num)).2.2.2⟩

/-- Closed form of `calculate_cme_impact` after the final cap at 1. -/
theorem calculate_cme_impact_eq (s : ℚ) :
    calculate_cme_impact s =
      if s ≤ 0 then 0
      else if s < 500 then s / 1000
      else if s < 1000 then 1/2 + (s - 500) / 1000
      else 1 := by
  simp only [calculate_cme_impact]
  split_ifs with h1 h2 h3
  · rfl
  · exact min_eq_left (by linarith)
  · exact min_eq_left (by linarith)
  · exact min_eq_right (le_min (by linarith) (by norm_num))

/-- C7: `calculate_cme_impact` is monotonically non-decreasing, lies in
`[0, 1.5]`, exceeds 1 only for speeds ≥ 1000 km/s, and is linear on
each of the three speed bands. -/
theorem calculate_cme_impact_bands (s t : ℚ) :
    (s ≤ t → calculate_cme_impact s ≤ calculate_cme_impact t) ∧
    0 ≤ calculate_cme_impact s ∧
    calculate_cme_impact s ≤ 3/2 ∧
    (1 < calculate_cme_impact s → 1000 ≤ s) ∧
    (0 ≤ s → s < 500 → calculate_cme_impact s = s / 1000) ∧
    (500 ≤ s → s < 1000 → calculate_cme_impact s = 1/2 + (s - 500) / 1000) ∧
    (1000 ≤ s → calculate_cme_impact s = 1) := by
  rw [calculate_cme_impact_eq s, calculate_cme_impact_eq t]
  refine ⟨fun h => ?_, ?_, ?_, fun h => ?_, fun h1 h2 => ?_, fun h1 h2 => ?_,
    fun h1 => ?_⟩ <;>
    split_ifs at * <;> first | rfl | linarith

/-- Witness for C7: concrete speeds in each band. -/
theorem calculate_cme_impact_bands_witness :
    calculate_cme_impact 300 ≤ calculate_cme_impact 700 ∧
    calculate_cme_impact 300 = 300 / 1000 ∧
    calculate_cme_impact 700 = 1/2 + (700 - 500) / 1000 ∧
    calculate_cme_impact 1600 = 1 ∧
    (1 < calculate_cme_impact 1600 → 1000 ≤ (1600:ℚ)) :=
  ⟨(calculate_cme_impact_bands 300 700).1 (by norm_num),
   (calculate_cme_impact_bands 300 700).2.2.2.2.1 (by norm_num) (by norm_num),
   (calculate_cme_impact_bands 700 700).2.2.2.2.2.1 (by norm_num) (by norm_num),
   (calculate_cme_impact_bands 1600 700).2.2.2.2.2.2 (by norm_num),
   (calculate_cme_impact_bands 1600 700).2.2.2.1⟩

/-- Case analysis of `classify_severity`. -/
theorem classify_severity_cases (score : ℚ) :
    (classify_severity score = "high" ↔ 70 ≤ score) ∧
    (classify_severity score = "moderate" ↔ 40 ≤ score ∧ score < 70) ∧
    (classify_severity score = "low" ↔ score < 40) := by
  unfold classify_severity
  split_ifs with h1 h2 <;> refine ⟨?_, ?_, ?_⟩ <;> simp_all <;> intros <;>
    linarith

/-- C2: the composite score equals the clamped weighted sum
`0.35·aviation + 0.25·telecom + 0.20·gps_normalized +
0.20·power_grid_normalized` with GPS drift normalized as
`min(drift/500·100, 100)` and GIC level (1–10) normalized as
`(level−1)/9·100`; the score lies in `[0, 100]` and the severity is
`high` iff score ≥ 70, `moderate` iff 40 ≤ score < 70, `low` iff
score < 40. -/
theorem composite_calculate_spec (aviation telecom drift : ℚ) (gic : ℤ)
    (hg1 : 1 ≤ gic) (hg10 : gic ≤ 10) :
    (composite_calculate (some aviation) (some telecom) (some drift)
        (some gic)).1 =
      max 0 (min (7/20 * aviation + 1/4 * telecom +
        1/5 * min (drift / 500 * 100) 100 +
        1/5 * (((gic : ℚ) - 1) / 9 * 100)) 100) ∧
    0 ≤ (composite_calculate (some aviation) (some telecom) (some drift)
        (some gic)).1 ∧
    (composite_calculate (some aviation) (some telecom) (some drift)
        (some gic)).1 ≤ 100 ∧
    ((composite_calculate (some aviation) (some telecom) (some drift)
        (some gic)).2 = "high" ↔
      70 ≤ (composite_calculate (some aviation) (some telecom) (some drift)
        (some gic)).1) ∧
    ((composite_calculate (some aviation) (some telecom) (some drift)
        (some gic)).2 = "moderate" ↔
      40 ≤ (composite_calculate (some aviation) (some telecom) (some drift)
        (some gic)).1 ∧
      (composite_calculate (some aviation) (some telecom) (some drift)
        (some gic)).1 < 70) ∧
    ((composite_calculate (some aviation) (some telecom) (some drift)
        (some gic)).2 = "low" ↔
      (composite_calculate (some aviation) (some telecom) (some drift)
        (some gic)).1 < 40) := by
  have hgle : (gic : ℚ) ≤ 10 := by exact_mod_cast hg10
  have hgge : (1 : ℚ) ≤ (gic : ℚ) := by exact_mod_cast hg1
  have hg : normalize_gic_risk gic = ((gic : ℚ) - 1) / 9 * 100 := by
    unfold normalize_gic_risk
    rw [min_eq_left (by linarith), max_eq_right (by linarith)]
  have hfst : (composite_calculate (some aviation) (some telecom) (some drift)
      (some gic)).1 =
      max 0 (min (7/20 * aviation + 1/4 * telecom +
        1/5 * min (drift / 500 * 100) 100 +
        1/5 * (((gic : ℚ) - 1) / 9 * 100)) 100) := by
    simp [composite_calculate, calculate_composite_score, normalize_gps_drift,
      hg]
  have h2nd : (composite_calculate (some aviation) (some telecom) (some drift)
      (some gic)).2 =
      classify_severity ((composite_calculate (some aviation) (some telecom)
        (some drift) (some gic)).1) := rfl
  refine ⟨hfst, ?_, ?_, ?_, ?_, ?_⟩
  · rw [hfst]; exact le_max_left _ _
  · rw [hfst]; exact max_le (by norm_num) (min_le_right _ _)
  · rw [h2nd]; exact (classify_severity_cases _).1
  · rw [h2nd]; exact (classify_severity_cases _).2.1
  · rw [h2nd]; exact (classify_severity_cases _).2.2

/-- Witness for C2 at a concrete prediction dictionary. -/
theorem composite_calculate_spec_witness :
    (composite_calculate (some 80) (some 60) (some 250) (some 7)).1 =
      max 0 (min (7/20 * 80 + 1/4 * 60 + 1/5 * min ((250:ℚ) / 500 * 100) 100 +
        1/5 * ((((7:ℤ) : ℚ) - 1) / 9 * 100)) 100) ∧
    0 ≤ (composite_calculate (some 80) (some 60) (some 250) (some 7)).1 ∧
    (composite_calculate (some 80) (some 60) (some 250) (some 7)).1 ≤ 100 ∧
    ((composite_calculate (some 80) (some 60) (some 250) (some 7)).2 = "high" ↔
      70 ≤ (composite_calculate (some 80) (some 60) (some 250) (some 7)).1) ∧
    ((composite_calculate (some 80) (some 60) (some 250) (some 7)).2 =
        "moderate" ↔
      40 ≤ (composite_calculate (some 80) (some 60) (some 250) (some 7)).1 ∧
      (composite_calculate (some 80) (some 60) (some 250) (some 7)).1 < 70) ∧
    ((composite_calculate (some 80) (some 60) (some 250) (some 7)).2 = "low" ↔
      (composite_calculate (some 80) (some 60) (some 250) (some 7)).1 < 40) :=
  composite_calculate_spec 80 60 250 7 (by norm_num) (by norm_num)

/-- C6: for valid inputs (Kp in [0,9], proton flux ≥ 0, arbitrary bz and
wind speed) every sector output lies in its documented range: aviation
HF-blackout probability and telecom degradation in [0,100], GIC and
orbital drag risk integers in [1,10], GPS drift ≥ 0. -/
theorem sector_outputs_bounded (flare : FlareClassStr)
    (kp bz wind flux conductivity topology altitude : ℚ)
    (hkp0 : 0 ≤ kp) (hkp9 : kp ≤ 9) (hflux : 0 ≤ flux) :
    (0 ≤ calculate_hf_blackout_probability flare wind kp bz ∧
      calculate_hf_blackout_probability flare wind kp bz ≤ 100) ∧
    (0 ≤ calculate_signal_degradation kp bz wind flux ∧
      calculate_signal_degradation kp bz wind flux ≤ 100) ∧
    (1 ≤ calculate_gic_risk kp bz wind conductivity topology ∧
      calculate_gic_risk kp bz wind conductivity topology ≤ 10) ∧
    (1 ≤ calculate_orbital_drag_risk kp wind flux altitude ∧
      calculate_orbital_drag_risk kp wind flux altitude ≤ 10) ∧
    0 ≤ calculate_positional_drift kp bz wind flux := by
  refine ⟨?_, ?_, ?_, ?_, ?_⟩
  · unfold calculate_hf_blackout_probability
    exact ⟨le_max_left _ _, max_le (by norm_num) (min_le_right _ _)⟩
  · unfold calculate_signal_degradation
    exact ⟨le_max_left _ _, max_le (by norm_num) (min_le_right _ _)⟩
  · unfold calculate_gic_risk
    exact ⟨le_max_left _ _, max_le (by norm_num) (min_le_right _ _)⟩
  · unfold calculate_orbital_drag_risk
    exact ⟨le_max_left _ _, max_le (by norm_num) (min_le_right _ _)⟩
  · unfold calculate_positional_drift
    exact le_max_left _ _

/-- Witness for C6 at a concrete storm scenario. -/
theorem sector_outputs_bounded_witness :
    (0 ≤ calculate_hf_blackout_probability ⟨some 'X', some 2⟩ 600 5 (-10) ∧
      calculate_hf_blackout_probability ⟨some 'X', some 2⟩ 600 5 (-10) ≤ 100) ∧
    (0 ≤ calculate_signal_degradation 5 (-10) 600 100 ∧
      calculate_signal_degradation 5 (-10) 600 100 ≤ 100) ∧
    (1 ≤ calculate_gic_risk 5 (-10) 600 (1/2) 1 ∧
      calculate_gic_risk 5 (-10) 600 (1/2) 1 ≤ 10) ∧
    (1 ≤ calculate_orbital_drag_risk 5 600 100 400 ∧
      calculate_orbital_drag_risk 5 600 100 400 ≤ 10) ∧
    0 ≤ calculate_positional_drift 5 (-10) 600 100 :=
  sector_outputs_bounded ⟨some 'X', some 2⟩ 5 (-10) 600 100 (1/2) 1 400
    (by norm_num) (by norm_num) (by norm_num)

/-- Membership in the active list after one expiration pass. -/
theorem mem_active_expire_old (a : Alert) (s : AlertManagerState) (t : ℚ) :
    a ∈ (expire_old_alerts s t).active_alerts ↔
      a ∈ s.active_alerts ∧ t < a.expires_at := by
  simp [expire_old_alerts, List.mem_filter, Alert.is_expired, not_le]

/-- Membership in the history after one expiration pass. -/
theorem mem_history_expire_old (a : Alert) (s : AlertManagerState) (t : ℚ) :
    a ∈ (expire_old_alerts s t).alert_history ↔
      a ∈ s.alert_history ∨ (a ∈ s.active_alerts ∧ a.expires_at ≤ t) := by
  simp [expire_old_alerts, List.mem_append, List.mem_filter, Alert.is_expired]

/-- Unfolding lemma for `expire_many` on a cons cell. -/
theorem expire_many_cons (s : AlertManagerState) (t : ℚ) (ts : List ℚ) :
    expire_many s (t :: ts) = expire_many (expire_old_alerts s t) ts := rfl

/-- Membership in the active list after a sequence of expiration
checks. -/
theorem mem_active_expire_many (a : Alert) (ts : List ℚ) :
    ∀ s : AlertManagerState, a ∈ (expire_many s ts).active_alerts ↔
      a ∈ s.active_alerts ∧ ∀ t ∈ ts, t < a.expires_at := by
  induction ts with
  | nil => intro s; simp [expire_many]
  | cons t ts ih =>
    intro s
    rw [expire_many_cons, ih, mem_active_expire_old]
    simp only [List.mem_cons]
    constructor
    · rintro ⟨⟨ha, ht⟩, hall⟩
      exact ⟨ha, fun u hu => hu.elim (fun h => h ▸ ht) (hall u)⟩
    · rintro ⟨ha, hall⟩
      exact ⟨⟨ha, hall t (Or.inl rfl)⟩, fun u hu => hall u (Or.inr hu)⟩

/-- Membership in the history after a sequence of expiration checks. -/
theorem mem_history_expire_many (a : Alert) (ts : List ℚ) :
    ∀ s : AlertManagerState, a ∈ (expire_many s ts).alert_history ↔
      a ∈ s.alert_history ∨
        (a ∈ s.active_alerts ∧ ∃ t ∈ ts, a.expires_at ≤ t) := by
  induction ts with
  | nil => intro s; simp [expire_many]
  | cons t ts ih =>
    intro s
    rw [expire_many_cons, ih, mem_history_expire_old, mem_active_expire_old]
    simp only [List.mem_cons]
    constructor
    · rintro ((hH | ⟨hA, hle⟩) | ⟨⟨hA, _⟩, u, hu, hle⟩)
      · exact Or.inl hH
      · exact Or.inr ⟨hA, t, Or.inl rfl, hle⟩
      · exact Or.inr ⟨hA, u, Or.inr hu, hle⟩
    · rintro (hH | ⟨hA, u, (rfl | hu), hle⟩)
      · exact Or.inl (Or.inl hH)
      · exact Or.inl (Or.inr ⟨hA, hle⟩)
      · by_cases h : a.expires_at ≤ t
        · exact Or.inl (Or.inr ⟨hA, h⟩)
        · exact Or.inr ⟨⟨hA, lt_of_not_le h⟩, u, hu, hle⟩

/-- C3: an alert created at `T` with `expires_at = T + 2h`, initially
active and not in history, stays active (and out of history) exactly
while every expiration check uses a reference time `< T + 2h`; it is in
history (and out of the active list) exactly once some check uses a
reference time `≥ T + 2h`, including exactly `T + 2h`; it is never in
both collections. -/
theorem alert_expiration_lifecycle (a : Alert) (s : AlertManagerState)
    (ts : List ℚ) (hexp : a.expires_at = a.created_at + 7200)
    (hact : a ∈ s.active_alerts) (hhist : a ∉ s.alert_history) :
    (a ∈ (expire_many s ts).active_alerts ↔
      ∀ t ∈ ts, t < a.created_at + 7200) ∧
    (a ∈ (expire_many s ts).alert_history ↔
      ∃ t ∈ ts, a.created_at + 7200 ≤ t) ∧
    ¬(a ∈ (expire_many s ts).active_alerts ∧
      a ∈ (expire_many s ts).alert_history) := by
  rw [mem_active_expire_many a ts s, mem_history_expire_many a ts s, ← hexp]
  refine ⟨by simp [hact], by simp [hact, hhist], ?_⟩
  rintro ⟨⟨_, hall⟩, h | ⟨_, u, hu, hle⟩⟩
  · exact hhist h
  · exact absurd (hall u hu) (not_lt.mpr hle)

/-- Witness for C3: an alert created at time 0 expiring at 7200, checked
exactly at the boundary 7200. -/
theorem alert_expiration_lifecycle_witness :
    ((⟨0, 0, 7200⟩ : Alert) ∈
        (expire_many ⟨[⟨0, 0, 7200⟩], []⟩ [7200]).active_alerts ↔
      ∀ t ∈ ([7200] : List ℚ), t < (0:ℚ) + 7200) ∧
    ((⟨0, 0, 7200⟩ : Alert) ∈
        (expire_many ⟨[⟨0, 0, 7200⟩], []⟩ [7200]).alert_history ↔
      ∃ t ∈ ([7200] : List ℚ), (0:ℚ) + 7200 ≤ t) ∧
    ¬((⟨0, 0, 7200⟩ : Alert) ∈
        (expire_many ⟨[⟨0, 0, 7200⟩], []⟩ [7200]).active_alerts ∧
      (⟨0, 0, 7200⟩ : Alert) ∈
        (expire_many ⟨[⟨0, 0, 7200⟩], []⟩ [7200]).alert_history) :=
  alert_expiration_lifecycle ⟨0, 0, 7200⟩ ⟨[⟨0, 0, 7200⟩], []⟩ [7200]
    (by norm_num) (by simp) (by simp)

/-- Counterexample to C4 as stated: two forecasts with the same key,
merged well inside the 30-minute window, whose confidences are both 0.
`total_weight > 0` fails, so `merge_forecasts` keeps the existing
arrival window `[1000, 2000]` instead of widening it to the union
`[500, 3000]`. -/
theorem handle_new_forecast_no_widen_counterexample :
    forecast_key ⟨some "FORECAST", some 0, some "global", some 0, some 500,
        some 3000⟩ =
      forecast_key ⟨some "FORECAST", some 0, some "global", some 0, some 1000,
        some 2000⟩ ∧
    (600:ℚ) - 0 ≤ MERGE_WINDOW ∧
    (handle_new_forecast
        (fun _ =>
          some ⟨⟨some "FORECAST", some 0, some "global", some 0, some 1000,
            some 2000⟩, 0⟩)
        ⟨some "FORECAST", some 0, some "global", some 0, some 500, some 3000⟩
        600).1
      (forecast_key ⟨some "FORECAST", some 0, some "global", some 0, some 500,
        some 3000⟩) =
      some ⟨⟨some "FORECAST", some 0, some "global", some 0, some 1000,
        some 2000⟩, 600⟩ ∧
    some (1000:ℚ) ≠ some (min (1000:ℚ) 500) ∧
    some (2000:ℚ) ≠ some (max (2000:ℚ) 3000) := by
  refine ⟨rfl, by norm_num [MERGE_WINDOW], ?_, by norm_num [min_def],
    by norm_num [max_def]⟩
  norm_num [handle_new_forecast, merge_forecasts, MERGE_WINDOW]

/-- C4 as amended: when the new forecast's key matches an entry created
within the last 30 minutes, **and** the two confidences (defaulting to
50 when absent) sum to a positive value, **and** all four arrival-time
strings parse, the stored entry's confidence becomes
`min(100, average)`, its window becomes the union of the two windows
(never narrower than either), and its creation time is refreshed;
a forecast with a new key, or whose matching entry is older than 30
minutes, is stored as an independent entry. -/
theorem handle_new_forecast_merge_spec (reg : Registry) (p : ForecastPayload)
    (now : ℚ) :
    (∀ e : StoredForecast, reg (forecast_key p) = some e →
      now - e.created_at ≤ MERGE_WINDOW →
      0 < e.payload.confidence_percent.getD 50 + p.confidence_percent.getD 50 →
      ∀ exl exu nl nu : ℚ,
        e.payload.arrival_time_lower = some exl →
        e.payload.arrival_time_upper = some exu →
        p.arrival_time_lower = some nl →
        p.arrival_time_upper = some nu →
        (handle_new_forecast reg p now).1 (forecast_key p) =
          some ⟨{ e.payload with
                    confidence_percent :=
                      some (min 100 ((e.payload.confidence_percent.getD 50 +
                        p.confidence_percent.getD 50) / 2))
                    arrival_time_lower := some (min exl nl)
                    arrival_time_upper := some (max exu nu) }, now⟩ ∧
        min exl nl ≤ exl ∧ min exl nl ≤ nl ∧
        exu ≤ max exu nu ∧ nu ≤ max exu nu) ∧
    (reg (forecast_key p) = none →
      (handle_new_forecast reg p now).1 (forecast_key p) = some ⟨p, now⟩) ∧
    (∀ e : StoredForecast, reg (forecast_key p) = some e →
      MERGE_WINDOW < now - e.created_at →
      (handle_new_forecast reg p now).1 (forecast_key p) = some ⟨p, now⟩) := by
  refine ⟨fun e hreg hwin hw exl exu nl nu hl hu hnl hnu => ?_,
    fun hnone => ?_, fun e hreg hlate => ?_⟩
  · refine ⟨?_, min_le_left _ _, min_le_right _ _, le_max_left _ _,
      le_max_right _ _⟩
    simp [handle_new_forecast, hreg, hwin, merge_forecasts, hl, hu, hnl, hnu,
      hw]
  · simp [handle_new_forecast, hnone]
  · simp [handle_new_forecast, hreg, not_le.mpr hlate]

/-- Witness for C4 (amended) on a concrete merge within the window and a
concrete late arrival stored independently. -/
theorem handle_new_forecast_merge_spec_witness :
    ((handle_new_forecast
        (fun _ =>
          some ⟨⟨some "FORECAST", some 0, some "global", some 80, some 1000,
            some 2000⟩, 0⟩)
        ⟨some "FORECAST", some 0, some "global", some 60, some 500, some 3000⟩
        600).1
      (forecast_key ⟨some "FORECAST", some 0, some "global", some 60, some 500,
        some 3000⟩) =
      some ⟨⟨some "FORECAST", some 0, some "global",
        some (min 100 ((80 + 60) / 2)), some (min 1000 500),
        some (max 2000 3000)⟩, 600⟩ ∧
      min (1000:ℚ) 500 ≤ 1000 ∧ min (1000:ℚ) 500 ≤ 500 ∧
      (2000:ℚ) ≤ max 2000 3000 ∧ (3000:ℚ) ≤ max 2000 3000) ∧
    (handle_new_forecast (fun _ => none)
        ⟨some "FORECAST", some 0, some "global", some 60, some 500, some 3000⟩
        600).1
      (forecast_key ⟨some "FORECAST", some 0, some "global", some 60, some 500,
        some 3000⟩) =
      some ⟨⟨some "FORECAST", some 0, some "global", some 60, some 500,
        some 3000⟩, 600⟩ :=
  ⟨(handle_new_forecast_merge_spec
      (fun _ =>
        some ⟨⟨some "FORECAST", some 0, some "global", some 80, some 1000,
          some 2000⟩, 0⟩)
      ⟨some "FORECAST", some 0, some "global", some 60, some 500, some 3000⟩
      600).1
      ⟨⟨some "FORECAST", some 0, some "global", some 80, some 1000,
        some 2000⟩, 0⟩
      rfl (by norm_num [MERGE_WINDOW]) (by norm_num) 1000 2000 500 3000
      rfl rfl rfl rfl,
   (handle_new_forecast_merge_spec (fun _ => none)
      ⟨some "FORECAST", some 0, some "global", some 60, some 500, some 3000⟩
      600).2.1 rfl⟩

/-- C10: when any of the four arrival-time strings fails to parse,
`merge_forecasts` keeps the stored payload unchanged (no averaging, no
widening) and only refreshes `created_at` to now; no exception
escapes (the function is total). -/
theorem merge_forecasts_parse_failure (existing : StoredForecast)
    (p : ForecastPayload) (now : ℚ)
    (h : existing.payload.arrival_time_lower = none ∨
      existing.payload.arrival_time_upper = none ∨
      p.arrival_time_lower = none ∨ p.arrival_time_upper = none) :
    merge_forecasts existing p now = ⟨existing.payload, now⟩ := by
  unfold merge_forecasts
  rcases hl : existing.payload.arrival_time_lower with _ | exl <;>
    rcases hu : existing.payload.arrival_time_upper with _ | exu <;>
      rcases hnl : p.arrival_time_lower with _ | nl <;>
        rcases hnu : p.arrival_time_upper with _ | nu <;>
          simp_all

/-- Witness for C10: an unparseable existing lower bound leaves the
payload untouched while `created_at` is refreshed. -/
theorem merge_forecasts_parse_failure_witness :
    merge_forecasts
        ⟨⟨some "FORECAST", some 0, some "global", some 80, none, some 2000⟩, 0⟩
        ⟨some "FORECAST", some 0, some "global", some 60, some 500, some 3000⟩
        600 =
      ⟨⟨some "FORECAST", some 0, some "global", some 80, none, some 2000⟩,
        600⟩ :=
  merge_forecasts_parse_failure
    ⟨⟨some "FORECAST", some 0, some "global", some 80, none, some 2000⟩, 0⟩
    ⟨some "FORECAST", some 0, some "global", some 60, some 500, some 3000⟩
    600 (Or.inl rfl)

/-- Counterexample to C9 as stated: `"C9.5"` encodes to `3 + 0.95`, whose
fractional magnitude component `0.95` lies outside `[0, 0.9]`. -/
theorem encode_flare_class_fraction_counterexample :
    encode_flare_class ⟨some 'C', some (19/2)⟩ = 3 + 19/20 ∧
    ¬((19:ℚ)/20 ≤ 9/10) := by
  constructor
  · norm_num [encode_flare_class,
      show flare_class_encoding 'C'.toUpper = some 3 from rfl]
  · norm_num

/-- C9 as amended: `encode_flare_class` returns 0 for an empty string or
unknown class letter, the bare class-letter integer (A=1 … X=5, an
integer in [1,5]) when no magnitude suffix parses, and otherwise that
integer plus `magnitude/10` — a fractional component lying in
`[0, 0.99]` whenever the magnitude lies in the standard range
`[0, 9.9]`. -/
theorem encode_flare_class_spec (fc : FlareClassStr) :
    (fc.letter = none → encode_flare_class fc = 0) ∧
    (∀ c : Char, fc.letter = some c → flare_class_encoding c.toUpper = none →
      encode_flare_class fc = 0) ∧
    (∀ (c : Char) (base : ℕ), fc.letter = some c →
      flare_class_encoding c.toUpper = some base → fc.magnitude = none →
      encode_flare_class fc = base) ∧
    (∀ (c : Char) (base : ℕ) (m : ℚ), fc.letter = some c →
      flare_class_encoding c.toUpper = some base → fc.magnitude = some m →
      encode_flare_class fc = base + m / 10 ∧
        (0 ≤ m → m ≤ 99/10 → 0 ≤ m / 10 ∧ m / 10 ≤ 99/100)) ∧
    (∀ (c : Char) (base : ℕ), fc.letter = some c →
      flare_class_encoding c.toUpper = some base → 1 ≤ base ∧ base ≤ 5) := by
  refine ⟨fun h => ?_, fun c hc hn => ?_, fun c base hc hb hm => ?_,
    fun c base m hc hb hm =>
      ⟨?_, fun h0 h99 => ⟨by positivity, by linarith⟩⟩,
    fun c base hc hb => ?_⟩
  · simp [encode_flare_class, h]
  · simp [encode_flare_class, hc, hn]
  · simp [encode_flare_class, hc, hb, hm]
  · simp [encode_flare_class, hc, hb, hm]
  · unfold flare_class_encoding at hb
    split_ifs at hb <;> simp_all <;> omega

/-- Witness for C9 (amended): the empty, unknown, bare and
magnitude-carrying cases at concrete flare strings. -/
theorem encode_flare_class_spec_witness :
    encode_flare_class ⟨none, none⟩ = 0 ∧
    encode_flare_class ⟨some 'Z', some 1⟩ = 0 ∧
    encode_flare_class ⟨some 'M', none⟩ = (4:ℕ) ∧
    (encode_flare_class ⟨some 'M', some 3⟩ = (4:ℕ) + (3:ℚ) / 10 ∧
      (0 ≤ (3:ℚ) → (3:ℚ) ≤ 99/10 →
        0 ≤ (3:ℚ) / 10 ∧ (3:ℚ) / 10 ≤ 99/100)) ∧
    (1 ≤ (4:ℕ) ∧ (4:ℕ) ≤ 5) :=
  ⟨(encode_flare_class_spec ⟨none, none⟩).1 rfl,
   (encode_flare_class_spec ⟨some 'Z', some 1⟩).2.1 'Z' rfl rfl,
   (encode_flare_class_spec ⟨some 'M', none⟩).2.2.1 'M' 4 rfl rfl rfl,
   (encode_flare_class_spec ⟨some 'M', some 3⟩).2.2.2.1 'M' 4 3 rfl rfl rfl,
   (encode_flare_class_spec ⟨some 'M', some 3⟩).2.2.2.2 'M' 4 rfl rfl⟩

/-- A list sum of mapped values as a sum over `Fin`. -/
theorem list_sum_map_eq_fin_sum {α : Type} (l : List α) (f : α → ℝ) :
    (l.map f).sum = ∑ i : Fin l.length, f (l.get i) := by
  conv_lhs => rw [← List.ofFn_get l]
  rw [List.map_ofFn, List.sum_ofFn]
  rfl

/-- Negation moves out of a mapped list sum. -/
theorem list_sum_map_neg {α : Type} (l : List α) (f : α → ℝ) :
    (l.map fun x => -f x).sum = -(l.map f).sum := by
  induction l with
  | nil => simp
  | cons a l ih => simp [ih, neg_add]; ring

/-- Cauchy–Schwarz for list sums, square-root form. -/
theorem list_inner_le_sqrt (l : List (ℝ × ℝ)) (f g : ℝ × ℝ → ℝ) :
    (l.map fun x => f x * g x).sum ≤
      Real.sqrt (l.map fun x => f x ^ 2).sum *
        Real.sqrt (l.map fun x => g x ^ 2).sum := by
  rw [list_sum_map_eq_fin_sum, list_sum_map_eq_fin_sum,
    list_sum_map_eq_fin_sum]
  exact Real.sum_mul_le_sqrt_mul_sqrt Finset.univ
    (fun i => f (l.get i)) (fun i => g (l.get i))

/-- The mean absolute error of any series is non-negative. -/
theorem series_mae_nonneg (l : List (ℝ × ℝ)) : 0 ≤ series_mae l := by
  unfold series_mae
  refine div_nonneg (List.sum_nonneg ?_) (Nat.cast_nonneg _)
  intro x hx
  simp only [List.mem_map] at hx
  obtain ⟨y, _, rfl⟩ := hx
  exact abs_nonneg _

/-- The root mean square error of any series is non-negative. -/
theorem series_rmse_nonneg (l : List (ℝ × ℝ)) : 0 ≤ series_rmse l :=
  Real.sqrt_nonneg _

/-- The correlation coefficient of any series lies in `[−1, 1]`,
including the degenerate zero-variance case. -/
theorem series_correlation_mem (l : List (ℝ × ℝ)) :
    -1 ≤ series_correlation l ∧ series_correlation l ≤ 1 := by
  unfold series_correlation
  split_ifs with hd
  · have h1 : series_corr_num l ≤
        series_denom_pred l * series_denom_actual l := by
      unfold series_corr_num series_denom_pred series_denom_actual
      exact list_inner_le_sqrt l (fun x => x.1 - series_mean_pred l)
        (fun x => x.2 - series_mean_actual l)
    have h2 : -series_corr_num l ≤
        series_denom_pred l * series_denom_actual l := by
      unfold series_corr_num series_denom_pred series_denom_actual
      have h := list_inner_le_sqrt l (fun x => -(x.1 - series_mean_pred l))
        (fun x => x.2 - series_mean_actual l)
      simp only [neg_mul, neg_sq] at h
      rwa [list_sum_map_neg] at h
    constructor
    · rw [neg_le, ← neg_div]
      exact (div_le_one hd).mpr h2
    · exact (div_le_one hd).mpr h1
  · norm_num

/-- C8: whenever the timeline has at least one measurement event with
both predicted and actual impacts, `generate_accuracy_report` returns a
report in which every sector's MAE and RMSE are ≥ 0, every sector's
correlation coefficient lies in `[−1, 1]` (zero-variance series
included), the overall MAE is ≥ 0 and the overall correlation lies in
`[−1, 1]`. -/
theorem generate_accuracy_report_bounds (timeline : List BacktestEvent)
    (h : measurement_events timeline ≠ []) :
    ∃ r : AccuracyReport, generate_accuracy_report timeline = some r ∧
      accuracy_report_bounded r := by
  unfold generate_accuracy_report
  rw [if_neg (by simp [List.isEmpty_iff, h])]
  refine ⟨_, rfl, ?_⟩
  simp only [accuracy_report_bounded, sector_metrics_bounded, sector_metrics]
  refine ⟨⟨series_mae_nonneg _, series_rmse_nonneg _,
      (series_correlation_mem _).1, (series_correlation_mem _).2⟩,
    ⟨series_mae_nonneg _, series_rmse_nonneg _,
      (series_correlation_mem _).1, (series_correlation_mem _).2⟩,
    ⟨series_mae_nonneg _, series_rmse_nonneg _,
      (series_correlation_mem _).1, (series_correlation_mem _).2⟩,
    ⟨series_mae_nonneg _, series_rmse_nonneg _,
      (series_correlation_mem _).1, (series_correlation_mem _).2⟩,
    ⟨series_mae_nonneg _, series_rmse_nonneg _,
      (series_correlation_mem _).1, (series_correlation_mem _).2⟩,
    ⟨series_mae_nonneg _, series_rmse_nonneg _,
      (series_correlation_mem _).1, (series_correlation_mem _).2⟩,
    ?_, ?_, ?_⟩
  · have h1 := series_mae_nonneg (sector_series Impacts.hf_blackout_probability timeline)
    have h2 := series_mae_nonneg (sector_series Impacts.signal_degradation_percent timeline)
    have h3 := series_mae_nonneg (sector_series Impacts.positional_drift_cm timeline)
    have h4 := series_mae_nonneg (sector_series Impacts.gic_risk_level timeline)
    have h5 := series_mae_nonneg (sector_series Impacts.orbital_drag_risk timeline)
    have h6 := series_mae_nonneg (sector_series Impacts.composite_score timeline)
    exact div_nonneg (by linarith) (by norm_num)
  · have h1 := series_correlation_mem (sector_series Impacts.hf_blackout_probability timeline)
    have h2 := series_correlation_mem (sector_series Impacts.signal_degradation_percent timeline)
    have h3 := series_correlation_mem (sector_series Impacts.positional_drift_cm timeline)
    have h4 := series_correlation_mem (sector_series Impacts.gic_risk_level timeline)
    have h5 := series_correlation_mem (sector_series Impacts.orbital_drag_risk timeline)
    have h6 := series_correlation_mem (sector_series Impacts.composite_score timeline)
    show -1 ≤ (series_correlation (sector_series Impacts.hf_blackout_probability timeline) +
      series_correlation (sector_series Impacts.signal_degradation_percent timeline) +
      series_correlation (sector_series Impacts.positional_drift_cm timeline) +
      series_correlation (sector_series Impacts.gic_risk_level timeline) +
      series_correlation (sector_series Impacts.orbital_drag_risk timeline) +
      series_correlation (sector_series Impacts.composite_score timeline)) / 6
    obtain ⟨h1a, h1b⟩ := h1
    obtain ⟨h2a, h2b⟩ := h2
    obtain ⟨h3a, h3b⟩ := h3
    obtain ⟨h4a, h4b⟩ := h4
    obtain ⟨h5a, h5b⟩ := h5
    obtain ⟨h6a, h6b⟩ := h6
    linarith
  · have h1 := series_correlation_mem (sector_series Impacts.hf_blackout_probability timeline)
    have h2 := series_correlation_mem (sector_series Impacts.signal_degradation_percent timeline)
    have h3 := series_correlation_mem (sector_series Impacts.positional_drift_cm timeline)
    have h4 := series_correlation_mem (sector_series Impacts.gic_risk_level timeline)
    have h5 := series_correlation_mem (sector_series Impacts.orbital_drag_risk timeline)
    have h6 := series_correlation_mem (sector_series Impacts.composite_score timeline)
    show (series_correlation (sector_series Impacts.hf_blackout_probability timeline) +
      series_correlation (sector_series Impacts.signal_degradation_percent timeline) +
      series_correlation (sector_series Impacts.positional_drift_cm timeline) +
      series_correlation (sector_series Impacts.gic_risk_level timeline) +
      series_correlation (sector_series Impacts.orbital_drag_risk timeline) +
      series_correlation (sector_series Impacts.composite_score timeline)) / 6 ≤ 1
    obtain ⟨h1a, h1b⟩ := h1
    obtain ⟨h2a, h2b⟩ := h2
    obtain ⟨h3a, h3b⟩ := h3
    obtain ⟨h4a, h4b⟩ := h4
    obtain ⟨h5a, h5b⟩ := h5
    obtain ⟨h6a, h6b⟩ := h6
    linarith

/-- Witness for C8: a one-event timeline with complete predicted and
actual impacts. -/
theorem generate_accuracy_report_bounds_witness :
    ∃ r : AccuracyReport,
      generate_accuracy_report
          [⟨"measurement", 0, some ⟨1, 2, 3, 4, 5, 6⟩,
            some ⟨2, 3, 4, 5, 6, 7⟩⟩] = some r ∧
        accuracy_report_bounded r :=
  generate_accuracy_report_bounds
    [⟨"measurement", 0, some ⟨1, 2, 3, 4, 5, 6⟩, some ⟨2, 3, 4, 5, 6, 7⟩⟩]
    (by simp [measurement_events])

end AstroSense
